import Mathlib

/-!
Verification development for the spreadsheet package-assembly and element
serialization engine (umya-spreadsheet excerpt).

The embedding models:
* the XML token stream consumed by element parsers (`quick_xml` events) as a
  list of `XmlEvent`s, end-of-stream being the end of the list and a stream
  error being an `err` event;
* Rust `panic!` as the `ParseResult.panicked` outcome (process abort, as
  opposed to a `Result` value returned to the caller);
* the element structs `EffectList` (src/structs/drawing/effect_list.rs) and
  `NoMultiLevelLabels` (src/structs/drawing/charts/no_multi_level_labels.rs)
  together with their `set_attributes` / `write_to` methods;
* the package assembler `writer::xlsx::write` (src/writer/xlsx.rs) as a trace
  of part-writer invocations plus an outcome, with the identifier counters
  `chart_id`, `drawing_id`, `comment_id` threaded exactly as in the source.
-/

/-- One event of the XML token stream (quick_xml `Event`): a paired start tag
with its attributes, a self-closing (empty) tag, an end tag, a text node, or a
stream error carrying the buffer position and detail.  End-of-stream (`Eof`)
is modelled as the end of the event list. -/
inductive XmlEvent where
  | start (name : String) (attrs : List (String × String))
  | empty (name : String) (attrs : List (String × String))
  | endTag (name : String)
  | text (s : String)
  | err (pos : Nat) (msg : String)
deriving DecidableEq

/-- Outcome of a parsing method: normal return, or a Rust `panic!` (process
abort) with its message.  The source methods return `()` and abort on failure;
there is no recoverable error channel. -/
inductive ParseResult (α : Type) where
  | ok (a : α)
  | panicked (msg : String)
deriving DecidableEq

/-- Textual rendering of an attribute list, as the emitter writes it. -/
def renderAttrs : List (String × String) → String
  | [] => ""
  | (k, v) :: rest => " " ++ k ++ "=" ++ "\"" ++ v ++ "\"" ++ renderAttrs rest

/-- Textual rendering of one XML event (the bytes the emitter appends). -/
def renderEvent : XmlEvent → String
  | XmlEvent.start n a => "<" ++ n ++ renderAttrs a ++ ">"
  | XmlEvent.empty n a => "<" ++ n ++ renderAttrs a ++ "/>"
  | XmlEvent.endTag n => "</" ++ n ++ ">"
  | XmlEvent.text s => s
  | XmlEvent.err _ _ => ""

/-- Bytes of a whole event sequence. -/
def renderEvents (l : List XmlEvent) : String :=
  String.join (l.map renderEvent)

/-- Modelled from the spec: `BooleanValue` (structs/boolean_value.rs is not in
the provided sources).  Per §3 a Typed Attribute Value is an optional scalar
tracking explicitness (`none` = never explicitly set, schema default `false`
applies) and per §6 booleans convert to the textual forms "1"/"0". -/
structure BooleanValue where
  value : Option Bool
deriving DecidableEq

def BooleanValue.get_value (v : BooleanValue) : Bool :=
  v.value.getD false

def BooleanValue.get_value_string (v : BooleanValue) : String :=
  if v.get_value then "1" else "0"

def BooleanValue.set_value (v : BooleanValue) (b : Bool) : BooleanValue :=
  { v with value := some b }

def BooleanValue.set_value_string (v : BooleanValue) (s : String) : BooleanValue :=
  v.set_value (s == "1")

/-- Modelled from the spec: `get_attribute` of the reader driver
(reader/driver.rs is not in the provided sources): look up one attribute of a
start tag by name, `none` when absent. -/
def get_attribute (attrs : List (String × String)) (key : String) : Option String :=
  (attrs.find? (fun p => p.fst == key)).map Prod.snd

/-- The `c:noMultiLvlLbl` element
(src/structs/drawing/charts/no_multi_level_labels.rs): a single `val`
attribute of type `BooleanValue`. -/
structure NoMultiLevelLabels where
  val : BooleanValue
deriving DecidableEq

/-- Rust `#[derive(Default)]`: the `val` attribute starts never-set. -/
def NoMultiLevelLabels.default : NoMultiLevelLabels :=
  ⟨⟨none⟩⟩

def NoMultiLevelLabels.get_val (n : NoMultiLevelLabels) : Bool :=
  n.val.get_value

def NoMultiLevelLabels.set_val (n : NoMultiLevelLabels) (value : Bool) : NoMultiLevelLabels :=
  { n with val := n.val.set_value value }

/-- `NoMultiLevelLabels::set_attributes`: reads the `val` attribute of the
start tag and `unwrap()`s it — a missing `val` attribute panics. -/
def NoMultiLevelLabels.set_attributes (n : NoMultiLevelLabels)
    (e : List (String × String)) : ParseResult NoMultiLevelLabels :=
  match get_attribute e "val" with
  | some s => ParseResult.ok { n with val := n.val.set_value_string s }
  | none => ParseResult.panicked "called Option.unwrap on a None value"

/-- `NoMultiLevelLabels::write_to`: unconditionally emits the self-closing tag
`c:noMultiLvlLbl` with the `val` attribute in its textual form. -/
def NoMultiLevelLabels.write_to (n : NoMultiLevelLabels) : List XmlEvent :=
  [XmlEvent.empty "c:noMultiLvlLbl" [("val", n.val.get_value_string)]]

/-- Modelled from the spec: `Glow` (structs/drawing/glow.rs is not in the
provided sources) — a schema child of `a:effectLst`, per §1/§9 a flat
attribute bag; parsed from a paired `a:glow` start tag per §4.1, consuming
events up to its own closing tag. -/
structure Glow where
  attrs : List (String × String)
deriving DecidableEq

/-- Modelled from the spec: `OuterShadow` (structs/drawing/outer_shadow.rs is
not in the provided sources) — flat attribute bag parsed from a paired
`a:outerShdw` start tag. -/
structure OuterShadow where
  attrs : List (String × String)
deriving DecidableEq

/-- Modelled from the spec: `SoftEdge` (structs/drawing/soft_edge.rs is not in
the provided sources) — flat attribute bag parsed from a self-closing
`a:softEdge` tag. -/
structure SoftEdge where
  attrs : List (String × String)
deriving DecidableEq

def Glow.write_to (g : Glow) : List XmlEvent :=
  [XmlEvent.start "a:glow" g.attrs, XmlEvent.endTag "a:glow"]

def OuterShadow.write_to (o : OuterShadow) : List XmlEvent :=
  [XmlEvent.start "a:outerShdw" o.attrs, XmlEvent.endTag "a:outerShdw"]

def SoftEdge.write_to (s : SoftEdge) : List XmlEvent :=
  [XmlEvent.empty "a:softEdge" s.attrs]

/-- The `a:effectLst` element (src/structs/drawing/effect_list.rs): three
optional children in schema order glow, outer shadow, soft edge. -/
structure EffectList where
  glow : Option Glow
  outer_shadow : Option OuterShadow
  soft_edge : Option SoftEdge
deriving DecidableEq

/-- Rust `#[derive(Default)]`: all three children absent. -/
def EffectList.default : EffectList :=
  ⟨none, none, none⟩

def EffectList.set_glow (el : EffectList) (value : Glow) : EffectList :=
  { el with glow := some value }

def EffectList.set_outer_shadow (el : EffectList) (value : OuterShadow) : EffectList :=
  { el with outer_shadow := some value }

def EffectList.set_soft_edge (el : EffectList) (value : SoftEdge) : EffectList :=
  { el with soft_edge := some value }

/-- Modelled from the spec: the event consumption of a paired child's
`set_attributes` (§4.1) — read events until the child's own closing tag,
panicking on end-of-stream or on a stream error, as the source family of
element parsers does. -/
def consumeUntilEnd (tag : String) : List XmlEvent → ParseResult (List XmlEvent)
  | [] => ParseResult.panicked ("Error not find " ++ tag ++ " end element")
  | XmlEvent.endTag t :: rest =>
      if t = tag then ParseResult.ok rest else consumeUntilEnd tag rest
  | XmlEvent.err p m :: _ =>
      ParseResult.panicked ("Error at position " ++ toString p ++ ": " ++ m)
  | _ :: rest => consumeUntilEnd tag rest

theorem consumeUntilEnd_length_le (tag : String) :
    ∀ l rest : List XmlEvent, consumeUntilEnd tag l = ParseResult.ok rest →
      rest.length ≤ l.length := by
  intro l
  induction l with
  | nil =>
      intro rest h
      simp [consumeUntilEnd] at h
  | cons e tl ih =>
      intro rest h
      cases e with
      | endTag t =>
          by_cases ht : t = tag
          · simp [consumeUntilEnd, ht] at h
            subst h
            simp only [List.length_cons]
            omega
          · simp [consumeUntilEnd, ht] at h
            have := ih rest h
            simp only [List.length_cons]
            omega
      | err p m =>
          simp [consumeUntilEnd] at h
      | start n a =>
          simp [consumeUntilEnd] at h
          have := ih rest h
          simp only [List.length_cons]
          omega
      | empty n a =>
          simp [consumeUntilEnd] at h
          have := ih rest h
          simp only [List.length_cons]
          omega
      | text s =>
          simp [consumeUntilEnd] at h
          have := ih rest h
          simp only [List.length_cons]
          omega

/-- The event loop of `EffectList::set_attributes`: dispatches on self-closing
`a:softEdge`, paired `a:glow` / `a:outerShdw`, returns at the own end tag
`a:effectLst`, panics on end-of-stream or a stream error, and ignores every
other event.  Returns the updated element and the unconsumed remainder of the
stream. -/
def effectListLoop (st : EffectList) :
    List XmlEvent → ParseResult (EffectList × List XmlEvent)
  | [] => ParseResult.panicked "Error not find a:effectLst end element"
  | XmlEvent.empty n attrs :: rest =>
      if n = "a:softEdge" then
        effectListLoop (st.set_soft_edge ⟨attrs⟩) rest
      else
        effectListLoop st rest
  | XmlEvent.start n attrs :: rest =>
      if n = "a:glow" then
        match h : consumeUntilEnd "a:glow" rest with
        | ParseResult.ok rest2 => effectListLoop (st.set_glow ⟨attrs⟩) rest2
        | ParseResult.panicked m => ParseResult.panicked m
      else if n = "a:outerShdw" then
        match h : consumeUntilEnd "a:outerShdw" rest with
        | ParseResult.ok rest2 => effectListLoop (st.set_outer_shadow ⟨attrs⟩) rest2
        | ParseResult.panicked m => ParseResult.panicked m
      else
        effectListLoop st rest
  | XmlEvent.endTag n :: rest =>
      if n = "a:effectLst" then ParseResult.ok (st, rest) else effectListLoop st rest
  | XmlEvent.text _ :: rest => effectListLoop st rest
  | XmlEvent.err p m :: _ =>
      ParseResult.panicked ("Error at position " ++ toString p ++ ": " ++ m)
termination_by l => l.length
decreasing_by
  all_goals simp_wf
  · have := consumeUntilEnd_length_le "a:glow" rest rest2 h
    omega
  · have := consumeUntilEnd_length_le "a:outerShdw" rest rest2 h
    omega

/-- `EffectList::set_attributes`: the opening `a:effectLst` tag has already
been consumed by the caller; the body loop processes the remaining stream. -/
def EffectList.set_attributes (st : EffectList) (events : List XmlEvent) :
    ParseResult (EffectList × List XmlEvent) :=
  effectListLoop st events

/-- `EffectList::write_to`: opens `a:effectLst` with no attributes, emits each
present child via its own `write_to` in declaration order (glow, outer shadow,
soft edge), skips absent children, closes the tag. -/
def EffectList.write_to (el : EffectList) : List XmlEvent :=
  [XmlEvent.start "a:effectLst" []]
  ++ (match el.glow with
      | some v => v.write_to
      | none => [])
  ++ (match el.outer_shadow with
      | some v => v.write_to
      | none => [])
  ++ (match el.soft_edge with
      | some v => v.write_to
      | none => [])
  ++ [XmlEvent.endTag "a:effectLst"]

/-- Optional-child emission used to state the child-order property. -/
def optWrite {α : Type} (w : α → List XmlEvent) : Option α → List XmlEvent
  | some v => w v
  | none => []

/-- The per-sheet data the assembler loop of `writer::xlsx::write` consults:
whether the sheet owns a drawing object (`has_drawing_object()`), whether it
owns comments (`has_comments()`), how many chart graphic frames its worksheet
drawing holds, and how many pictures. -/
structure Sheet where
  has_drawing_object : Bool
  has_comments : Bool
  graphic_frames : Nat
  pictures : Nat
deriving DecidableEq

/-- The sheet collection of a `Spreadsheet`, in order. -/
structure SpreadsheetW where
  sheets : List Sheet
deriving DecidableEq

/-- One part-writer invocation made by `writer::xlsx::write`, recording the
identifier-counter values passed at that call site. -/
inductive PartCall where
  | contentTypes
  | docPropsApp
  | docPropsCore
  | vbaProjectBin
  | rels
  | workbookRels
  | theme
  | workbook
  | worksheetPart (i : Nat)
  | worksheetRels (i : Nat) (drawingId : Nat) (commentId : Nat)
  | drawingPart (i : Nat) (drawingId : Nat)
  | drawingRels (i : Nat) (drawingId : Nat) (chartId : Nat)
  | commentPart (i : Nat) (commentId : Nat)
  | vmlDrawing (i : Nat) (commentId : Nat)
  | chartPart (chartId : Nat)
  | mediaPart (i : Nat)
  | sharedStrings
  | styles
deriving DecidableEq

/-- The part-writer calls made for sheet `i` of the loop body of `write`, with
the counter values in effect on entry: worksheet, worksheet rels, drawing,
drawing rels, comment, vml drawing, then one chart part per graphic frame at
the running `chart_id`, then one media part per picture. -/
def sheetCalls (sh : Sheet) (i chartId drawingId commentId : Nat) : List PartCall :=
  [PartCall.worksheetPart i,
   PartCall.worksheetRels i drawingId commentId,
   PartCall.drawingPart i drawingId,
   PartCall.drawingRels i drawingId chartId,
   PartCall.commentPart i commentId,
   PartCall.vmlDrawing i commentId]
  ++ (List.range sh.graphic_frames).map (fun k => PartCall.chartPart (chartId + k))
  ++ (List.range sh.pictures).map (fun _ => PartCall.mediaPart i)

/-- The sheet loop of `write`: after each sheet, `drawing_id` advances by one
exactly when the sheet owns a drawing object, `comment_id` advances by one
exactly when it owns comments, and `chart_id` advances once per graphic frame.
Returns the calls made and the final `(chart_id, drawing_id, comment_id)`. -/
def loopSheets : List Sheet → Nat → Nat → Nat → Nat → List PartCall × Nat × Nat × Nat
  | [], _, chartId, drawingId, commentId => ([], chartId, drawingId, commentId)
  | sh :: rest, i, chartId, drawingId, commentId =>
      let calls := sheetCalls sh i chartId drawingId commentId
      let out := loopSheets rest (i + 1)
        (chartId + sh.graphic_frames)
        (drawingId + (if sh.has_drawing_object then 1 else 0))
        (commentId + (if sh.has_comments then 1 else 0))
      (calls ++ out.1, out.2)

/-- The fixed-order part-writer calls preceding the shared-strings and styles
parts: the eight header parts of `write` in source order, then the sheet loop
started with all three counters at 1. -/
def writeCallsBeforeTables (s : SpreadsheetW) : List PartCall :=
  [PartCall.contentTypes, PartCall.docPropsApp, PartCall.docPropsCore,
   PartCall.vbaProjectBin, PartCall.rels, PartCall.workbookRels,
   PartCall.theme, PartCall.workbook]
  ++ (loopSheets s.sheets 0 1 1 1).1

/-- Every part-writer call one run of `write` makes, in order. -/
def writeParts (s : SpreadsheetW) : List PartCall :=
  writeCallsBeforeTables s ++ [PartCall.sharedStrings, PartCall.styles]

/-- Outcome of one run of `write`: the archive finalized with the given calls
made (`Ok(())` in the source), an error returned from `arv.finish()?`, or a
panic from one of the two `.unwrap()` calls. -/
inductive WriteOutcome where
  | ok (parts : List PartCall)
  | errOut (parts : List PartCall) (e : String)
  | panicked (parts : List PartCall) (msg : String)
deriving DecidableEq

/-- `writer::xlsx::write`: every part writer up to the sheet loop has its
`Result` discarded with `let _ =` — `env` gives each part writer's result, and
none of those results influences control flow.  The shared-strings and styles
writers are `.unwrap()`ed (panic on error), and only `arv.finish()?` can make
`write` return an error. -/
def writeModel (s : SpreadsheetW) (env : PartCall → Except String Unit)
    (finishRes : Except String Unit) : WriteOutcome :=
  match env PartCall.sharedStrings with
  | Except.error e => WriteOutcome.panicked (writeCallsBeforeTables s ++ [PartCall.sharedStrings]) e
  | Except.ok _ =>
    match env PartCall.styles with
    | Except.error e => WriteOutcome.panicked (writeParts s) e
    | Except.ok _ =>
      match finishRes with
      | Except.error e => WriteOutcome.errOut (writeParts s) e
      | Except.ok _ => WriteOutcome.ok (writeParts s)

/-- The chart ids passed to the chart part writer, in call order. -/
def chartIds : List PartCall → List Nat
  | [] => []
  | PartCall.chartPart c :: rest => c :: chartIds rest
  | _ :: rest => chartIds rest

/-- Total number of chart graphic frames over a sheet list. -/
def totalGraphicFrames (l : List Sheet) : Nat :=
  (l.map Sheet.graphic_frames).sum

/-- Number of sheets owning at least one drawing object. -/
def countDrawingSheets (l : List Sheet) : Nat :=
  l.countP (fun sh => sh.has_drawing_object)

/-- Number of sheets owning comments. -/
def countCommentSheets (l : List Sheet) : Nat :=
  l.countP (fun sh => sh.has_comments)

/-- Events the `EffectList::set_attributes` loop ignores: everything that is
not a known child tag in its recognized event shape, not the own closing tag,
and not a stream error (end-of-stream is the end of the list). -/
def ignorableEv : XmlEvent → Bool
  | XmlEvent.empty n _ => n != "a:softEdge"
  | XmlEvent.start n _ => n != "a:glow" && n != "a:outerShdw"
  | XmlEvent.endTag n => n != "a:effectLst"
  | XmlEvent.text _ => true
  | XmlEvent.err _ _ => false

/-- A part-writer environment in which the content-types writer fails and
every other part writer succeeds. -/
def envFailContentTypes : PartCall → Except String Unit
  | PartCall.contentTypes => Except.error "content types serialization failed"
  | _ => Except.ok ()

theorem chartIds_append (a b : List PartCall) :
    chartIds (a ++ b) = chartIds a ++ chartIds b := by
  induction a with
  | nil => simp [chartIds]
  | cons e tl ih =>
      cases e <;> simp [chartIds, ih]

theorem chartIds_map_chartPart (n c : Nat) :
    chartIds ((List.range n).map (fun k => PartCall.chartPart (c + k))) = List.range' c n := by
  rw [List.range'_eq_map_range]
  induction n with
  | zero => simp [chartIds]
  | succ m ih =>
      rw [List.range_succ]
      simp only [List.map_append, chartIds_append, ih]
      simp [chartIds]

theorem chartIds_replicate_media (k i : Nat) :
    chartIds (List.replicate k (PartCall.mediaPart i)) = [] := by
  induction k with
  | zero => simp [chartIds]
  | succ m ih => simp [List.replicate_succ, chartIds, ih]

theorem chartIds_sheetCalls (sh : Sheet) (i c d m : Nat) :
    chartIds (sheetCalls sh i c d m) = List.range' c sh.graphic_frames := by
  simp only [sheetCalls, chartIds_append, chartIds_map_chartPart]
  simp [chartIds, chartIds_append, chartIds_map_chartPart, chartIds_replicate_media]

theorem loopSheets_spec (sheets : List Sheet) :
    ∀ i c d m : Nat,
      chartIds (loopSheets sheets i c d m).1 = List.range' c (totalGraphicFrames sheets) ∧
      (loopSheets sheets i c d m).2 =
        (c + totalGraphicFrames sheets, d + countDrawingSheets sheets,
         m + countCommentSheets sheets) := by
  induction sheets with
  | nil =>
      intro i c d m
      simp [loopSheets, totalGraphicFrames, countDrawingSheets, countCommentSheets, chartIds]
  | cons sh rest ih =>
      intro i c d m
      have hrec := ih (i + 1) (c + sh.graphic_frames)
        (d + (if sh.has_drawing_object then 1 else 0))
        (m + (if sh.has_comments then 1 else 0))
      constructor
      · simp only [loopSheets, chartIds_append, chartIds_sheetCalls, hrec.1]
        rw [List.range'_append_1]
        congr 1
        simp only [totalGraphicFrames, List.map_cons, List.sum_cons]
        omega
      · simp only [loopSheets, hrec.2, totalGraphicFrames, countDrawingSheets,
          countCommentSheets]
        simp [List.countP_cons]
        constructor
        · omega
        constructor
        · cases h1 : sh.has_drawing_object <;> (simp; try omega)
        · cases h2 : sh.has_comments <;> (simp; try omega)

/-- Claim C1: in one run of `write` the counters `chart_id`, `drawing_id`,
`comment_id` all start at 1 (visible in `writeParts` starting `loopSheets`
with 1 1 1); the chart ids passed to the chart part writer are exactly
`1, 2, …, total_chart_count` in sheet-then-declaration order with no gaps or
repeats; and the final counter values show `drawing_id` advanced exactly once
per sheet owning a drawing object and `comment_id` exactly once per sheet
owning comments, sheets owning none consuming no id. -/
theorem write_identifier_allocation (s : SpreadsheetW) :
    chartIds (writeParts s) = List.range' 1 (totalGraphicFrames s.sheets) ∧
    (loopSheets s.sheets 0 1 1 1).2 =
      (1 + totalGraphicFrames s.sheets, 1 + countDrawingSheets s.sheets,
       1 + countCommentSheets s.sheets) := by
  have h := loopSheets_spec s.sheets 0 1 1 1
  refine ⟨?_, h.2⟩
  simp only [writeParts, writeCallsBeforeTables, List.append_assoc, chartIds_append, h.1]
  simp [chartIds]

/-- Claim C2, counterexample: with the content-types part writer failing and
everything else succeeding, `write` still returns `Ok` and makes every later
part-writer call — it does not abort at the first part failure, and the
archive is finalized without the failed part's content being required. -/
theorem write_swallows_first_part_error_cex :
    writeModel ⟨[]⟩ envFailContentTypes (Except.ok ())
      = WriteOutcome.ok
          [PartCall.contentTypes, PartCall.docPropsApp, PartCall.docPropsCore,
           PartCall.vbaProjectBin, PartCall.rels, PartCall.workbookRels,
           PartCall.theme, PartCall.workbook, PartCall.sharedStrings, PartCall.styles] := by
  decide

/-- Claim C2, amended: every part writer's `Result` is discarded with
`let _ =`; a failing part writer (here content types) does not stop the run —
`write` proceeds through all remaining parts and finalizes the archive,
returning `Ok`.  Only `arv.finish()?` can surface an error, and the
shared-strings and styles writers are `.unwrap()`ed (panic, not a returned
error). -/
theorem write_continues_after_part_error (s : SpreadsheetW)
    (env : PartCall → Except String Unit) (e : String)
    (h1 : env PartCall.sharedStrings = Except.ok ())
    (h2 : env PartCall.styles = Except.ok ())
    (h3 : env PartCall.contentTypes = Except.error e) :
    writeModel s env (Except.ok ()) = WriteOutcome.ok (writeParts s) := by
  simp [writeModel, h1, h2]

/-- Witness for claim C2's amended theorem at the concrete spreadsheet with no
sheets and the environment failing exactly on content types. -/
theorem write_continues_after_part_error_witness :
    writeModel ⟨[]⟩ envFailContentTypes (Except.ok ())
      = WriteOutcome.ok (writeParts ⟨[]⟩) :=
  write_continues_after_part_error ⟨[]⟩ envFailContentTypes
    "content types serialization failed" rfl rfl rfl

/-- Claim C3, counterexample: for the default-constructed `NoMultiLevelLabels`
(val never explicitly set), the emitted tag carries `val="0"`, and reparsing
that output yields an element whose `val` is explicitly `false` — structurally
different from the original, whose `val` is unset.  So `parse(write(x))` is
not structurally equal to `x` for every in-schema `x`. -/
theorem roundtrip_structural_equality_cex :
    NoMultiLevelLabels.write_to NoMultiLevelLabels.default
      = [XmlEvent.empty "c:noMultiLvlLbl" [("val", "0")]] ∧
    NoMultiLevelLabels.set_attributes NoMultiLevelLabels.default [("val", "0")]
      = ParseResult.ok ⟨⟨some false⟩⟩ ∧
    (⟨⟨some false⟩⟩ : NoMultiLevelLabels) ≠ NoMultiLevelLabels.default := by
  refine ⟨by decide, by decide, by decide⟩

/-- Claim C3, amended: the byte-level round trip
`write(parse(write(x))) == write(x)` holds for `NoMultiLevelLabels` (every
value) and for `EffectList` (every value, structurally
`parse(write(x)) = x`); but `parse(write(x))` is structurally equal to `x`
for `NoMultiLevelLabels` only when `val` was explicitly set — reparsing
always marks `val` explicit. -/
theorem write_parse_write_roundtrip (n : NoMultiLevelLabels) (el : EffectList) :
    (∃ n2 : NoMultiLevelLabels,
       NoMultiLevelLabels.set_attributes NoMultiLevelLabels.default
           [("val", n.val.get_value_string)] = ParseResult.ok n2 ∧
       n2.write_to = n.write_to ∧
       renderEvents n2.write_to = renderEvents n.write_to ∧
       (∀ b, n.val.value = some b → n2 = n)) ∧
    EffectList.set_attributes EffectList.default (EffectList.write_to el).tail
      = ParseResult.ok (el, []) := by
  constructor
  · rcases n with ⟨⟨v⟩⟩
    cases v with
    | none =>
        refine ⟨⟨⟨some false⟩⟩, by decide, by decide, by decide, ?_⟩
        intro b hb
        exact Option.noConfusion hb
    | some b =>
        cases b with
        | false =>
            refine ⟨⟨⟨some false⟩⟩, by decide, by decide, by decide, ?_⟩
            intro b hb
            have hb2 : false = b := by simpa using hb
            subst hb2
            rfl
        | true =>
            refine ⟨⟨⟨some true⟩⟩, by decide, by decide, by decide, ?_⟩
            intro b hb
            have hb2 : true = b := by simpa using hb
            subst hb2
            rfl
  · rcases el with ⟨g, o, se⟩
    rcases g with _ | ⟨ga⟩ <;> rcases o with _ | ⟨oa⟩ <;> rcases se with _ | ⟨sa⟩ <;>
      simp [EffectList.write_to, EffectList.set_attributes, effectListLoop,
        consumeUntilEnd, EffectList.default, EffectList.set_glow,
        EffectList.set_outer_shadow, EffectList.set_soft_edge,
        Glow.write_to, OuterShadow.write_to, SoftEdge.write_to]

/-- Claim C4, counterexample: a default-constructed `NoMultiLevelLabels`,
whose `val` was never explicitly set, still emits the `val` attribute (with
the default textual form "0") — the emitted tag does not omit it. -/
theorem default_val_attribute_emitted_cex :
    NoMultiLevelLabels.write_to NoMultiLevelLabels.default
      = [XmlEvent.empty "c:noMultiLvlLbl" [("val", "0")]] ∧
    get_attribute [("val", "0")] "val" = some "0" := by
  decide

/-- Claim C4, amended: `NoMultiLevelLabels::write_to` always emits the `val`
attribute, whether or not it was explicitly set; a never-set value emits the
default textual form "0". -/
theorem val_attribute_always_emitted (n : NoMultiLevelLabels) :
    n.write_to = [XmlEvent.empty "c:noMultiLvlLbl" [("val", n.val.get_value_string)]] ∧
    NoMultiLevelLabels.default.val.get_value_string = "0" :=
  ⟨rfl, rfl⟩

/-- Claim C5, counterexample: in the part order of `write`, docProps/app.xml
is written at position 1 and docProps/core.xml at position 2 — core.xml is
not written before app.xml, contrary to the claimed
`… → CoreProps → AppProps → …` order. -/
theorem core_before_app_order_cex :
    (writeParts ⟨[]⟩).indexOf PartCall.docPropsApp = 1 ∧
    (writeParts ⟨[]⟩).indexOf PartCall.docPropsCore = 2 ∧
    ¬((writeParts ⟨[]⟩).indexOf PartCall.docPropsCore
        < (writeParts ⟨[]⟩).indexOf PartCall.docPropsApp) := by
  decide

/-- Claim C5, amended: the fixed part order of `write` is content types,
docProps app, docProps core, vba binary, package relationships, workbook
relationships, theme, workbook, the per-sheet loop, shared strings, styles,
finalize — i.e. app.xml is written before core.xml, the rest as claimed. -/
theorem write_part_order (s : SpreadsheetW) :
    writeParts s =
      [PartCall.contentTypes, PartCall.docPropsApp, PartCall.docPropsCore,
       PartCall.vbaProjectBin, PartCall.rels, PartCall.workbookRels,
       PartCall.theme, PartCall.workbook]
      ++ (loopSheets s.sheets 0 1 1 1).1
      ++ [PartCall.sharedStrings, PartCall.styles] ∧
    (writeParts s).indexOf PartCall.docPropsApp = 1 ∧
    (writeParts s).indexOf PartCall.docPropsCore = 2 := by
  refine ⟨by simp [writeParts, writeCallsBeforeTables], rfl, rfl⟩

/-- Claim C6, counterexample: `EffectList::set_attributes` reaching
end-of-stream before its closing tag, or hitting a malformed-stream error,
panics (aborts the process) — the outcome is `ParseResult.panicked`, not a
recoverable error value returned to the caller. -/
theorem parse_eof_panics_cex :
    EffectList.set_attributes EffectList.default []
      = ParseResult.panicked "Error not find a:effectLst end element" ∧
    EffectList.set_attributes EffectList.default [XmlEvent.err 5 "malformed"]
      = ParseResult.panicked "Error at position 5: malformed" := by
  constructor
  · simp [EffectList.set_attributes, effectListLoop]
  · simp only [EffectList.set_attributes, effectListLoop]
    rfl

/-- Claim C6, amended: end-of-stream before the own closing tag makes
`EffectList::set_attributes` panic with a message naming the expected tag
`a:effectLst`, and a malformed token stream makes it panic with a message
carrying the stream position and detail; both terminate the process rather
than returning an error value. -/
theorem parse_eof_and_malformed_panic (st : EffectList) (p : Nat) (m : String)
    (rest : List XmlEvent) :
    EffectList.set_attributes st []
      = ParseResult.panicked "Error not find a:effectLst end element" ∧
    EffectList.set_attributes st (XmlEvent.err p m :: rest)
      = ParseResult.panicked ("Error at position " ++ toString p ++ ": " ++ m) := by
  constructor
  · simp [EffectList.set_attributes, effectListLoop]
  · simp [EffectList.set_attributes, effectListLoop]

/-- Claim C7: `EffectList::write_to` emits its children in the schema order
glow, outer shadow, soft edge, and an absent (`None`) child emits no tag and
contributes no bytes. -/
theorem effectlist_child_order_and_absent_omission (el : EffectList) :
    el.write_to =
      [XmlEvent.start "a:effectLst" []]
      ++ optWrite Glow.write_to el.glow
      ++ optWrite OuterShadow.write_to el.outer_shadow
      ++ optWrite SoftEdge.write_to el.soft_edge
      ++ [XmlEvent.endTag "a:effectLst"] ∧
    optWrite Glow.write_to none = [] ∧
    optWrite OuterShadow.write_to none = [] ∧
    optWrite SoftEdge.write_to none = [] ∧
    renderEvents (optWrite Glow.write_to none) = "" := by
  refine ⟨?_, rfl, rfl, rfl, rfl⟩
  rcases el with ⟨g, o, se⟩
  rcases g with _ | ga <;> rcases o with _ | oa <;> rcases se with _ | sa <;>
    simp [EffectList.write_to, optWrite]

/-- Claim C8: the `EffectList::set_attributes` loop ignores every event that
is not a known child tag, its own closing tag, end-of-stream or a stream
error; a stream of such ignorable events followed by the own closing tag
parses successfully, leaves the element unchanged and terminates at the
closing tag. -/
theorem parse_ignores_unknown_events (pre rest : List XmlEvent) (st : EffectList)
    (h : ∀ e ∈ pre, ignorableEv e = true) :
    EffectList.set_attributes st (pre ++ XmlEvent.endTag "a:effectLst" :: rest)
      = ParseResult.ok (st, rest) := by
  induction pre with
  | nil => simp [EffectList.set_attributes, effectListLoop]
  | cons e tl ih =>
      have he := h e (List.mem_cons_self e tl)
      have htl : ∀ x ∈ tl, ignorableEv x = true := fun x hx => h x (List.mem_cons_of_mem e hx)
      have ih2 := ih htl
      cases e with
      | empty n a =>
          have hn : ¬(n = "a:softEdge") := by simpa [ignorableEv] using he
          simpa [EffectList.set_attributes, effectListLoop, hn] using ih2
      | start n a =>
          have hn : ¬(n = "a:glow") ∧ ¬(n = "a:outerShdw") := by
            simpa [ignorableEv] using he
          simpa [EffectList.set_attributes, effectListLoop, hn.1, hn.2] using ih2
      | endTag n =>
          have hn : ¬(n = "a:effectLst") := by simpa [ignorableEv] using he
          simpa [EffectList.set_attributes, effectListLoop, hn] using ih2
      | text s =>
          simpa [EffectList.set_attributes, effectListLoop] using ih2
      | err p m =>
          simp [ignorableEv] at he

/-- Witness for claim C8's theorem at a concrete stream holding an unknown
start tag, a text node, an unknown empty tag (`a:glow` is only recognized as
a paired start tag) and a foreign end tag before the closing tag. -/
theorem parse_ignores_unknown_events_witness :
    EffectList.set_attributes EffectList.default
      [XmlEvent.start "x:unknown" [("a", "b")], XmlEvent.text "stray",
       XmlEvent.empty "a:glow" [], XmlEvent.endTag "c:other",
       XmlEvent.endTag "a:effectLst"]
      = ParseResult.ok (EffectList.default, []) :=
  parse_ignores_unknown_events
    [XmlEvent.start "x:unknown" [("a", "b")], XmlEvent.text "stray",
     XmlEvent.empty "a:glow" [], XmlEvent.endTag "c:other"]
    [] EffectList.default (by decide)

/-- Claim C9: after `set_val(true)` the emitted attribute is exactly
`val="1"` (not `val="true"`), reparsing it yields `get_val() == true`, and
symmetrically `set_val(false)` serializes as `val="0"` and reparses to
`false`. -/
theorem boolean_val_serialization_roundtrip :
    (NoMultiLevelLabels.default.set_val true).write_to
      = [XmlEvent.empty "c:noMultiLvlLbl" [("val", "1")]] ∧
    (NoMultiLevelLabels.default.set_val false).write_to
      = [XmlEvent.empty "c:noMultiLvlLbl" [("val", "0")]] ∧
    NoMultiLevelLabels.set_attributes NoMultiLevelLabels.default [("val", "1")]
      = ParseResult.ok ⟨⟨some true⟩⟩ ∧
    (⟨⟨some true⟩⟩ : NoMultiLevelLabels).get_val = true ∧
    NoMultiLevelLabels.set_attributes NoMultiLevelLabels.default [("val", "0")]
      = ParseResult.ok ⟨⟨some false⟩⟩ ∧
    (⟨⟨some false⟩⟩ : NoMultiLevelLabels).get_val = false := by
  decide

/-- Claim C10: `NoMultiLevelLabels::set_attributes` requires the start tag to
carry a `val` attribute: with `val` present the parse succeeds and stores the
value derived from its textual form (the in-schema forms "1"/"0" reproduce
themselves on re-serialization), and with `val` absent the `unwrap()` of the
missing attribute panics. -/
theorem set_attributes_requires_val (attrs : List (String × String)) :
    (∀ s : String, get_attribute attrs "val" = some s →
       NoMultiLevelLabels.set_attributes NoMultiLevelLabels.default attrs
         = ParseResult.ok ⟨BooleanValue.set_value_string ⟨none⟩ s⟩ ∧
       ((s = "1" ∨ s = "0") →
         (BooleanValue.set_value_string ⟨none⟩ s).get_value_string = s)) ∧
    (get_attribute attrs "val" = none →
       NoMultiLevelLabels.set_attributes NoMultiLevelLabels.default attrs
         = ParseResult.panicked "called Option.unwrap on a None value") := by
  constructor
  · intro s hs
    constructor
    · simp [NoMultiLevelLabels.set_attributes, NoMultiLevelLabels.default, hs]
    · rintro (rfl | rfl) <;> decide
  · intro h
    simp [NoMultiLevelLabels.set_attributes, NoMultiLevelLabels.default, h]

/-- Witness for claim C10's theorem: both branches discharged at concrete
attribute lists — `val="1"` present, and no attributes at all. -/
theorem set_attributes_requires_val_witness :
    (NoMultiLevelLabels.set_attributes NoMultiLevelLabels.default [("val", "1")]
       = ParseResult.ok ⟨BooleanValue.set_value_string ⟨none⟩ "1"⟩ ∧
     ((("1" : String) = "1" ∨ ("1" : String) = "0") →
       (BooleanValue.set_value_string ⟨none⟩ "1").get_value_string = "1")) ∧
    NoMultiLevelLabels.set_attributes NoMultiLevelLabels.default []
      = ParseResult.panicked "called Option.unwrap on a None value" :=
  ⟨(set_attributes_requires_val [("val", "1")]).1 "1" rfl,
   (set_attributes_requires_val []).2 rfl⟩
